import Mathlib

/-!
Verification of the SATOSA protocol-backend authentication flow and the
SATOSAConfig configuration class.

The configuration class is embedded directly from
src/satosa/satosa_config.py.  The SAML backend module itself
(satosa/backends/saml2.py) is not among the sources; only its test suite
(tests/satosa/backends/test_saml2.py) is.  Its operations are therefore
modelled from the specification (spec.md sections 3 to 4.6), with details
that the test suite pins down (response status line, query-parameter names,
the shape of the per-flow state entry, the metadata content type) taken
from the tests.
-/

namespace Satosa

/-! ## Association-list primitives

Python dictionaries are modelled as association lists with unique keys
maintained by the update operation.  These primitives back the flow-state
map, attribute maps and the configuration dictionary. -/

/-- First binding of key `k` in the association list, if any. -/
def alistGet {β : Type} (l : List (String × β)) (k : String) : Option β :=
  match l.find? (fun kv => kv.1 == k) with
  | some kv => some kv.2
  | none => none

/-- Python-dict style update: replace the first binding of `k`, or append. -/
def alistSet {β : Type} (l : List (String × β)) (k : String) (v : β) :
    List (String × β) :=
  match l with
  | [] => [(k, v)]
  | kv :: rest =>
      if kv.1 = k then (k, v) :: rest else kv :: alistSet rest k v

/-- Python-dict style deletion: drop every binding of `k`. -/
def alistRemove {β : Type} (l : List (String × β)) (k : String) :
    List (String × β) :=
  l.filter (fun kv => kv.1 ≠ k)

/-! ## Flow state

The caller-persisted per-flow mapping (spec section 3).  The backend stores
its Flow Correlation Entry, a dict holding the relay token, under its own
name; entries of other components are opaque to this backend. -/

/-- A value stored in the flow state: either this backend's Flow Correlation
Entry (the test seeds it as a dict holding only the relay token under the
key relay_state) or opaque data belonging to another component. -/
inductive StateVal where
  | corr (relay_state : String)
  | other (data : String)
deriving DecidableEq, Repr

/-- The caller-owned flow state, threaded through every operation. -/
abbrev FlowState := List (String × StateVal)

/-! ## Provider directory and responses -/

/-- Organization information of a provider (name, display name, url). -/
structure OrgInfo where
  name : List String
  display_name : List String
  url : List String
deriving DecidableEq, Repr

/-- Human-facing UI information of a provider. -/
structure UIInfo where
  display_name : List String
  description : List String
  logo : List String
deriving DecidableEq, Repr

/-- One entry of the Provider Directory: endpoint plus descriptive
metadata, keyed by the provider's entity identifier (spec section 3). -/
structure ProviderRecord where
  entityid : String
  single_sign_on_service : String
  contact_person : List String
  organization : OrgInfo
  ui_info : UIInfo
deriving DecidableEq, Repr

/-- The outbound redirect instruction returned to the caller: status line,
target location and the query parameters carried on the target URL.  The
test suite pins the status line to 303 See Other. -/
structure Response where
  status : String
  location : String
  params : List (String × String)
deriving DecidableEq, Repr

/-- A plain HTTP response (used by the metadata endpoint). -/
structure HttpResponse where
  status : String
  headers : List (String × String)
  message : String
deriving DecidableEq, Repr

/-- The protocol-neutral input: optionally carries a pre-selected provider
identifier (mirroring), already decoded. -/
structure InternalRequest where
  target_entity_id : Option String
deriving DecidableEq, Repr

/-- The protocol-neutral output: canonical attributes, the asserted
authentication-context class reference and the asserting provider. -/
structure InternalResponse where
  attributes : List (String × List String)
  auth_class_ref : String
  issuer : String
deriving DecidableEq, Repr

/-- The decoded inbound provider response: relay token, issuer, the verdict
of the trusted protocol library's assertion checks (signature, time window,
audience, abstracted as one Boolean), asserted attributes and the
authentication-context class reference. -/
structure ProviderResponse where
  relay_state : String
  issuer : String
  assertion_valid : Bool
  attributes : List (String × List String)
  auth_class_ref : String
deriving DecidableEq, Repr

/-- The supported message encodings (spec section 6: at least the
redirect-query and form-post bindings). -/
inductive Binding where
  | redirect
  | post
deriving DecidableEq, Repr

/-- A raw inbound message before decoding: what each binding's decoder
would extract from it, or nothing when it is not decodable under that
binding. -/
structure RawInbound where
  redirect_payload : Option ProviderResponse
  post_payload : Option ProviderResponse
deriving DecidableEq, Repr

/-- Modelled from the spec: step 1 of validate (section 4.4) decodes the
inbound message according to the requested binding. -/
def decodeMessage : Binding → RawInbound → Option ProviderResponse
  | .redirect, m => m.redirect_payload
  | .post, m => m.post_payload

/-- The error kinds of spec section 7. -/
inductive SATOSAError where
  | UnknownProviderError
  | InvalidDiscoveryResponseError
  | MalformedMessageError
  | CorrelationMismatchError
  | AssertionInvalidError
deriving DecidableEq, Repr

/-- The backend component: its name (the flow-state key it owns), its own
entity identifier, the read-only Provider Directory, the configured
discovery service URL, its own endpoints and the attribute mapping table
(canonical name to priority-ordered external names). -/
structure SAMLBackend where
  name : String
  entityid : String
  providers : List ProviderRecord
  disco_srv : String
  discovery_response_endpoint : String
  authn_endpoints : List (Binding × String)
  publish_metadata : String
  internal_attributes : List (String × List String)
deriving DecidableEq, Repr

/-- Resolve a provider identifier in the Provider Directory. -/
def findProvider (b : SAMLBackend) (provider_id : String) :
    Option ProviderRecord :=
  b.providers.find? (fun p => p.entityid == provider_id)

/-! ## Flow operations, modelled from the spec -/

/-- Modelled from the spec: issue (section 4.3), the Authentication Request
Builder; satosa/backends/saml2.py is absent from the sources.  The fresh
high-entropy relay token is an explicit argument (the randomness source is
external).  Resolves the provider, builds the redirect to its
single-sign-on endpoint carrying the encoded request and the relay token
(query-parameter names per the tests), and stores the Flow Correlation
Entry under the backend's own name, replacing any prior entry. -/
def authn_request (b : SAMLBackend) (relay_token : String)
    (flow : FlowState) (provider_id : String) :
    Except SATOSAError (Response × FlowState) :=
  match findProvider b provider_id with
  | none => .error .UnknownProviderError
  | some p =>
      .ok ({ status := "303 See Other",
             location := p.single_sign_on_service,
             params := [("SAMLRequest",
                         "AuthnRequest issuer=" ++ b.entityid
                           ++ " destination=" ++ p.single_sign_on_service),
                        ("RelayState", relay_token)] },
           alistSet flow b.name (.corr relay_token))

/-- Modelled from the spec: buildRedirect (section 4.2), the Discovery
Delegate; satosa/backends/saml2.py is absent from the sources.  Stateless
redirect to the configured discovery service URL, carrying the backend's
own discovery-callback URL and its own identifier (parameter names per the
tests). -/
def disco_redirect (b : SAMLBackend) : Response :=
  { status := "303 See Other",
    location := b.disco_srv,
    params := [("return", b.discovery_response_endpoint),
               ("entityID", b.entityid)] }

/-- Modelled from the spec: start (section 4.1), the Backend Flow
Controller entry point; satosa/backends/saml2.py is absent from the
sources.  Decision order, first match wins: mirrored target, then
single-provider shortcut, then discovery redirect (which writes no flow
state). -/
def start_auth (b : SAMLBackend) (relay_token : String)
    (flow : FlowState) (req : InternalRequest) :
    Except SATOSAError (Response × FlowState) :=
  match req.target_entity_id with
  | some provider_id => authn_request b relay_token flow provider_id
  | none =>
      match b.providers with
      | [p] => authn_request b relay_token flow p.entityid
      | _ => .ok (disco_redirect b, flow)

/-- The discovery callback's decoded query: the selected entity identifier,
when present. -/
structure DiscoveryResponse where
  entityID : Option String
deriving DecidableEq, Repr

/-- Modelled from the spec: handleDiscoveryCallback (section 4.1);
satosa/backends/saml2.py is absent from the sources.  Fails when the
selection is absent or unknown to the Provider Directory, else delegates
to issue. -/
def disco_response (b : SAMLBackend) (relay_token : String)
    (flow : FlowState) (dresp : DiscoveryResponse) :
    Except SATOSAError (Response × FlowState) :=
  match dresp.entityID with
  | none => .error .InvalidDiscoveryResponseError
  | some provider_id =>
      match findProvider b provider_id with
      | none => .error .InvalidDiscoveryResponseError
      | some _ => authn_request b relay_token flow provider_id

/-- Modelled from the spec: the Attribute Mapper (sections 2 and 4.4 step
5); satosa/backends/saml2.py is absent from the sources.  For each
canonical attribute, the values of the first configured external name (in
priority order) present in the asserted set; canonical attributes with no
match are omitted. -/
def mapAttributes (mapping : List (String × List String))
    (asserted : List (String × List String)) :
    List (String × List String) :=
  mapping.filterMap (fun kv =>
    match kv.2.findSome? (fun ext => alistGet asserted ext) with
    | some vals => some (kv.1, vals)
    | none => none)

/-- Modelled from the spec: validate (section 4.4), the Authentication
Response Validator; satosa/backends/saml2.py is absent from the sources.
Decode per binding, verify the relay token against the stored Flow
Correlation Entry before anything else is trusted, verify the assertion,
then map attributes.  Never mutates the flow state. -/
def validate (b : SAMLBackend) (flow : FlowState)
    (msg : RawInbound) (binding : Binding) :
    Except SATOSAError InternalResponse :=
  match decodeMessage binding msg with
  | none => .error .MalformedMessageError
  | some pr =>
      match alistGet flow b.name with
      | some (.corr stored) =>
          if stored = pr.relay_state then
            if pr.assertion_valid then
              .ok { attributes := mapAttributes b.internal_attributes pr.attributes,
                    auth_class_ref := pr.auth_class_ref,
                    issuer := pr.issuer }
            else .error .AssertionInvalidError
          else .error .CorrelationMismatchError
      | _ => .error .CorrelationMismatchError

/-- Modelled from the spec: handleProviderResponse (section 4.1);
satosa/backends/saml2.py is absent from the sources.  Delegates to
validate, then removes the Flow Correlation Entry for this backend from
the flow state unconditionally, touching no other entry. -/
def authn_response (b : SAMLBackend) (flow : FlowState)
    (msg : RawInbound) (binding : Binding) :
    Except SATOSAError InternalResponse × FlowState :=
  (validate b flow msg binding, alistRemove flow b.name)

/-! ## Metadata publisher and endpoint registration, modelled from the spec -/

/-- A descriptive summary of one known provider for discovery UIs
(spec section 4.5). -/
structure MetadataDesc where
  entityid : String
  organization : OrgInfo
  contact_person : List String
  ui_info : UIInfo
deriving DecidableEq, Repr

/-- Modelled from the spec: the projection of one Provider Record to its
Provider Description (section 4.5). -/
def toDescription (p : ProviderRecord) : MetadataDesc :=
  { entityid := p.entityid,
    organization := p.organization,
    contact_person := p.contact_person,
    ui_info := p.ui_info }

/-- Modelled from the spec: describeProviders (section 4.5);
satosa/backends/saml2.py is absent from the sources.  A pure projection of
the Provider Directory, one description per entry, in directory order. -/
def get_metadata_desc (b : SAMLBackend) : List MetadataDesc :=
  b.providers.map toDescription

/-- The endpoint URLs this backend publishes in its own metadata: every
binding variant of the authentication endpoints, the discovery-callback
endpoint and the own-metadata endpoint (spec section 4.6). -/
def advertised_endpoints (b : SAMLBackend) : List String :=
  b.authn_endpoints.map (fun e => e.2)
    ++ [b.discovery_response_endpoint, b.publish_metadata]

/-- Modelled from the spec: ownMetadataDocument (section 4.5);
satosa/backends/saml2.py is absent from the sources.  A deterministic
serialization of this backend's own entity identifier and advertised
endpoints (the test asserts the entity identifier occurs in the body). -/
def ownMetadataDocument (b : SAMLBackend) : String :=
  "<EntityDescriptor entityID=" ++ b.entityid ++ ">"
    ++ String.join ((advertised_endpoints b).map
        (fun e => "<Endpoint Location=" ++ e ++ "/>"))
    ++ "</EntityDescriptor>"

/-- Modelled from the spec: the own-metadata endpoint (section 4.5);
satosa/backends/saml2.py is absent from the sources.  The content type
follows the repository's test test_metadata_endpoint, which asserts the
Content-Type header equals text/xml. -/
def metadata_endpoint (b : SAMLBackend) : HttpResponse :=
  { status := "200 OK",
    headers := [("Content-Type", "text/xml")],
    message := ownMetadataDocument b }

/-- Modelled from the spec: registeredRoutes (section 4.6);
satosa/backends/saml2.py is absent from the sources.  One route per
advertised endpoint: the authentication endpoints per binding, the
discovery callback and the metadata endpoint. -/
def register_endpoints (b : SAMLBackend) : List (String × String) :=
  b.authn_endpoints.map (fun e => (e.2, "authn_response"))
    ++ [(b.discovery_response_endpoint, "disco_response"),
        (b.publish_metadata, "metadata_endpoint")]

/-! ## SATOSAConfig, embedded from src/satosa/satosa_config.py

Python values are modelled by `PyVal`; the filesystem is modelled as
empty (no string names an existing file, so `_readfile` returns its input
unchanged), and the external json and yaml string parsers are explicit
function arguments returning `Option PyVal`, where `none` covers both a
parse failure (the caught ValueError) and a parse producing Python None:
either way the source's loop moves on to the next parser with a non-dict,
falsy value in hand, so the two are observationally merged.  What the
embedding keeps exact is the control flow of `__init__`, `_verify_dict`,
`_load_dict`, `_load_json`, `_load_yaml` and `__getattr__`: in particular
that `json.loads` raises an uncaught TypeError when handed a non-string
(only ValueError is caught in `_load_json`), and that the two parser
loops break on different conditions (`is not None` for the config itself,
truthiness for the INTERNAL_ATTRIBUTES reparse). -/

/-- A Python value, as far as the configuration code discriminates them. -/
inductive PyVal where
  | pynone
  | pybool (b : Bool)
  | pyint (n : Int)
  | pystr (s : String)
  | pydict (d : List (String × PyVal))

/-- Python truthiness for the modelled values. -/
def PyVal.truthy : PyVal → Bool
  | .pynone => false
  | .pybool b => b
  | .pyint n => n != 0
  | .pystr s => s != ""
  | .pydict d => !d.isEmpty

/-- The Python exceptions the configuration code can raise. -/
inductive PyError where
  | assertionError (msg : String)
  | typeError
  | attributeError (msg : String)
deriving DecidableEq, Repr

/-- SATOSAConfig.mandatory_dict_keys, verbatim from the source. -/
def mandatory_dict_keys : List String :=
  ["BASE", "PLUGIN_PATH", "BACKEND_MODULES", "FRONTEND_MODULES",
   "INTERNAL_ATTRIBUTES", "COOKIE_STATE_NAME", "STATE_ENCRYPTION_KEY"]

/-- SATOSAConfig._load_dict: returns the input when it is a dict, else
Python None (the implicit return). -/
def _load_dict : PyVal → Option PyVal
  | .pydict d => some (.pydict d)
  | _ => none

/-- SATOSAConfig._load_json: `_readfile` hands the input through (no file
exists in the model; on a non-string, `os.path.isfile` raises and the
bare except in `_readfile` returns the input unchanged), then `json.loads`
parses a string (a ValueError is caught, giving None) but raises an
uncaught TypeError on any non-string. -/
def _load_json (jsonParse : String → Option PyVal) :
    PyVal → Except PyError (Option PyVal)
  | .pystr s => .ok (jsonParse s)
  | _ => .error .typeError

/-- SATOSAConfig._load_yaml: `yaml.load` on a string, with every
exception caught (yielding None); a non-string input also makes the yaml
call raise, equally caught. -/
def _load_yaml (yamlParse : String → Option PyVal) : PyVal → Option PyVal
  | .pystr s => yamlParse s
  | _ => none

/-- SATOSAConfig._verify_dict: raises AssertionError when the conf is
None or not a dict, or on the first mandatory key not present in it. -/
def _verify_dict : Option PyVal → Except PyError Unit
  | some (.pydict d) =>
      match mandatory_dict_keys.find? (fun k => (alistGet d k).isNone) with
      | some k =>
          .error (.assertionError ("Missing key '" ++ k ++ "' in config"))
      | none => .ok ()
  | _ => .error (.assertionError "Missing configuration or unknown format")

/-- The first parser loop of SATOSAConfig.__init__ over
[_load_dict, _load_json, _load_yaml], breaking as soon as a parser's
result `is not None`. -/
def parse_config (jsonParse yamlParse : String → Option PyVal)
    (config : PyVal) : Except PyError (Option PyVal) :=
  match _load_dict config with
  | some v => .ok (some v)
  | none =>
      match _load_json jsonParse config with
      | .error e => .error e
      | .ok (some v) => .ok (some v)
      | .ok none => .ok (_load_yaml yamlParse config)

/-- The second parser loop of SATOSAConfig.__init__, reparsing the value
bound to INTERNAL_ATTRIBUTES; this one breaks on truthiness, and the
value kept is the last parser's result even when falsy.  An empty dict is
falsy, so the loop falls through to `_load_json` applied to the dict,
which raises TypeError, as it does for any non-dict non-string value. -/
def parse_internal_attributes (jsonParse yamlParse : String → Option PyVal)
    (v : PyVal) : Except PyError PyVal :=
  match _load_dict v with
  | some d => if d.truthy then .ok d else .error .typeError
  | none =>
      match _load_json jsonParse v with
      | .error e => .error e
      | .ok r =>
          let rv := match r with
            | some x => x
            | none => PyVal.pynone
          if rv.truthy then .ok rv
          else .ok (match _load_yaml yamlParse v with
            | some y => y
            | none => PyVal.pynone)

/-- SATOSAConfig.__init__: parse the given config, verify the mandatory
keys, then reparse the INTERNAL_ATTRIBUTES value and store the result in
its place ( _verify_dict guarantees the dict case, so the empty-list
fallback of the inner match is never taken, and the source's else branch
for a missing INTERNAL_ATTRIBUTES key is dead code retained for
faithfulness).  Returns the final internal config dict. -/
def SATOSAConfig_init (jsonParse yamlParse : String → Option PyVal)
    (config : PyVal) : Except PyError (List (String × PyVal)) :=
  match parse_config jsonParse yamlParse config with
  | .error e => .error e
  | .ok c =>
      match _verify_dict c with
      | .error e => .error e
      | .ok _ =>
          let d := match c with
            | some (.pydict d) => d
            | _ => []
          match alistGet d "INTERNAL_ATTRIBUTES" with
          | some iv =>
              match parse_internal_attributes jsonParse yamlParse iv with
              | .error e => .error e
              | .ok parsed => .ok (alistSet d "INTERNAL_ATTRIBUTES" parsed)
          | none => .ok (alistSet d "INTERNAL_ATTRIBUTES" .pynone)

/-- SATOSAConfig.__getattr__ on a successfully constructed instance
(whose internal `_config` is then a dict, hence not None): returns the
value bound to the item when present, else raises AttributeError with
the source's message. -/
def SATOSAConfig_getattr (conf : List (String × PyVal)) (item : String) :
    Except PyError PyVal :=
  match alistGet conf item with
  | some v => .ok v
  | none =>
      .error (.attributeError
        ("'module' object has no attribute '" ++ item ++ "'"))

/-! ## Association-list lemmas -/

theorem alistGet_nil {β : Type} (k : String) :
    alistGet ([] : List (String × β)) k = none := rfl

theorem alistGet_cons {β : Type} (k k' : String) (v : β)
    (l : List (String × β)) :
    alistGet ((k', v) :: l) k
      = if k' = k then some v else alistGet l k := by
  by_cases h : k' = k
  · subst h
    simp [alistGet, List.find?]
  · have hb : (k' == k) = false := by
      simpa using h
    simp [alistGet, List.find?, hb, h]

theorem alistRemove_cons {β : Type} (k k' : String) (v : β)
    (l : List (String × β)) :
    alistRemove ((k', v) :: l) k
      = if k' = k then alistRemove l k
        else (k', v) :: alistRemove l k := by
  by_cases h : k' = k <;> simp [alistRemove, List.filter, h]

theorem alistGet_alistSet_self {β : Type} (l : List (String × β))
    (k : String) (v : β) :
    alistGet (alistSet l k v) k = some v := by
  induction l with
  | nil => simp [alistSet, alistGet_cons]
  | cons kv rest ih =>
      obtain ⟨k', v'⟩ := kv
      by_cases h : k' = k
      · simp [alistSet, h, alistGet_cons]
      · simp [alistSet, h, alistGet_cons, ih]

theorem alistGet_alistSet_ne {β : Type} (l : List (String × β))
    (k k' : String) (v : β) (h : k' ≠ k) :
    alistGet (alistSet l k v) k' = alistGet l k' := by
  induction l with
  | nil => simp [alistSet, alistGet_cons, alistGet_nil, Ne.symm h]
  | cons kv rest ih =>
      obtain ⟨k0, v0⟩ := kv
      by_cases hk : k0 = k
      · subst hk
        simp [alistSet, alistGet_cons, Ne.symm h]
      · simp [alistSet, hk, alistGet_cons, ih]

theorem alistGet_alistRemove_self {β : Type} (l : List (String × β))
    (k : String) :
    alistGet (alistRemove l k) k = none := by
  induction l with
  | nil => rfl
  | cons kv rest ih =>
      obtain ⟨k0, v0⟩ := kv
      by_cases h : k0 = k
      · simpa [alistRemove_cons, h] using ih
      · simpa [alistRemove_cons, h, alistGet_cons] using ih

theorem alistGet_alistRemove_ne {β : Type} (l : List (String × β))
    (k k' : String) (h : k' ≠ k) :
    alistGet (alistRemove l k) k' = alistGet l k' := by
  induction l with
  | nil => rfl
  | cons kv rest ih =>
      obtain ⟨k0, v0⟩ := kv
      by_cases hk : k0 = k
      · subst hk
        simp [alistRemove_cons, alistGet_cons, Ne.symm h, ih]
      · by_cases hk' : k0 = k'
        · simp [alistRemove_cons, hk, alistGet_cons, hk', h]
        · simp [alistRemove_cons, hk, alistGet_cons, hk', ih]

/-! ## Sample fixtures used by the witnesses -/

/-- A first sample provider, mirroring the test fixtures. -/
def sampleIdP1 : ProviderRecord :=
  { entityid := "https://idp1.example.com",
    single_sign_on_service := "https://idp1.example.com/sso",
    contact_person := ["support@idp1.example.com"],
    organization := { name := ["IdP One"], display_name := ["IdP 1"],
                      url := ["https://idp1.example.com"] },
    ui_info := { display_name := ["IdP One"],
                 description := ["first sample provider"],
                 logo := ["https://idp1.example.com/logo.png"] } }

/-- A second sample provider, mirroring the extra IdP of the tests. -/
def sampleIdP2 : ProviderRecord :=
  { entityid := "just_an_extra_idp",
    single_sign_on_service := "https://idp2.example.com/sso",
    contact_person := ["support@idp2.example.com"],
    organization := { name := ["IdP Two"], display_name := ["IdP 2"],
                      url := ["https://idp2.example.com"] },
    ui_info := { display_name := ["IdP Two"],
                 description := ["second sample provider"],
                 logo := ["https://idp2.example.com/logo.png"] } }

/-- A sample backend with a two-provider directory, mirroring the test
configuration. -/
def sampleBackend : SAMLBackend :=
  { name := "samlbackend",
    entityid := "https://sp.example.com",
    providers := [sampleIdP1, sampleIdP2],
    disco_srv := "https://my.dicso.com/role/idp.ds",
    discovery_response_endpoint := "https://sp.example.com/disco",
    authn_endpoints := [(.redirect, "https://sp.example.com/acs/redirect"),
                        (.post, "https://sp.example.com/acs/post")],
    publish_metadata := "http://example.com/SAML2IDP/metadata",
    internal_attributes :=
      [("displayname", ["displayName"]),
       ("mail", ["email", "emailAdress", "mail"]),
       ("surname", ["sn", "surname"])] }

/-- The sample backend with a single-provider directory. -/
def sampleBackendSingle : SAMLBackend :=
  { sampleBackend with providers := [sampleIdP1] }

/-- A sample decoded provider response carrying relay token tokB. -/
def samplePr : ProviderResponse :=
  { relay_state := "tokB",
    issuer := "https://idp1.example.com",
    assertion_valid := true,
    attributes := [("email", ["test@example.com"]), ("sn", ["Testsson 1"])],
    auth_class_ref := "PASSWORD" }

/-- A sample raw inbound message decodable under the redirect binding. -/
def sampleMsg : RawInbound :=
  { redirect_payload := some samplePr, post_payload := none }

/-! ## Inversion helper -/

/-- Successful issuance yields exactly the flow state with the new Flow
Correlation Entry stored under the backend's name. -/
theorem authn_request_ok_flow
    (b : SAMLBackend) (t : String) (flow : FlowState) (pid : String)
    (r : Response) (flow2 : FlowState)
    (h : authn_request b t flow pid = .ok (r, flow2)) :
    flow2 = alistSet flow b.name (.corr t) := by
  unfold authn_request at h
  cases hf : findProvider b pid with
  | none => rw [hf] at h; exact absurd h (by simp)
  | some p =>
      rw [hf] at h
      injection h with h
      injection h with hr hs
      exact hs.symm

/-! ## C3 and C4: request issuance and response-side frame effect -/

/-- C4: a successful issue(flow_state, provider_id) embeds in the returned
redirect, as the RelayState query parameter, the same relay token that it
stores in the new Flow Correlation Entry under the backend's identifier,
and the store replaces any prior entry for that identifier (the stored
entry is the new one whatever the prior flow state held). -/
theorem authn_request_stores_returned_relay_token
    (b : SAMLBackend) (t : String) (flow : FlowState) (pid : String)
    (r : Response) (flow2 : FlowState)
    (h : authn_request b t flow pid = .ok (r, flow2)) :
    alistGet r.params "RelayState" = some t ∧
    alistGet flow2 b.name = some (.corr t) := by
  unfold authn_request at h
  cases hf : findProvider b pid with
  | none => rw [hf] at h; exact absurd h (by simp)
  | some p =>
      rw [hf] at h
      injection h with h
      injection h with hr hs
      subst hr hs
      refine ⟨?_, alistGet_alistSet_self _ _ _⟩
      simp [alistGet_cons]

/-- Witness for C4 at a concrete backend, flow state and provider. -/
theorem authn_request_stores_returned_relay_token_witness :
    alistGet
      (({ status := "303 See Other",
          location := "https://idp1.example.com/sso",
          params := [("SAMLRequest",
                      "AuthnRequest issuer=https://sp.example.com"
                        ++ " destination=https://idp1.example.com/sso"),
                     ("RelayState", "tok123")] } : Response)).params
      "RelayState" = some "tok123" ∧
    alistGet (alistSet ([] : FlowState) "samlbackend" (.corr "tok123"))
      "samlbackend" = some (.corr "tok123") :=
  authn_request_stores_returned_relay_token
    { name := "samlbackend",
      entityid := "https://sp.example.com",
      providers := [{ entityid := "https://idp1.example.com",
                      single_sign_on_service := "https://idp1.example.com/sso",
                      contact_person := [],
                      organization := { name := [], display_name := [], url := [] },
                      ui_info := { display_name := [], description := [], logo := [] } }],
      disco_srv := "https://my.dicso.com/role/idp.ds",
      discovery_response_endpoint := "https://sp.example.com/disco",
      authn_endpoints := [],
      publish_metadata := "http://example.com/SAML2IDP/metadata",
      internal_attributes := [] }
    "tok123" [] "https://idp1.example.com" _ _ (by rfl)

/-- C3: after handleProviderResponse, whatever the validation outcome, the
Flow Correlation Entry under the backend's own identifier is gone from the
flow state, and every other key keeps exactly the value it had before. -/
theorem authn_response_removes_only_own_entry
    (b : SAMLBackend) (flow : FlowState) (msg : RawInbound)
    (binding : Binding) :
    alistGet (authn_response b flow msg binding).2 b.name = none ∧
    ∀ k, k ≠ b.name →
      alistGet (authn_response b flow msg binding).2 k = alistGet flow k := by
  refine ⟨alistGet_alistRemove_self _ _, fun k hk => ?_⟩
  exact alistGet_alistRemove_ne _ _ _ hk

/-- Witness for C3 at a concrete backend and flow state holding a foreign
entry. -/
theorem authn_response_removes_only_own_entry_witness :
    alistGet
      (authn_response
        { name := "samlbackend",
          entityid := "https://sp.example.com",
          providers := [],
          disco_srv := "https://my.dicso.com/role/idp.ds",
          discovery_response_endpoint := "https://sp.example.com/disco",
          authn_endpoints := [],
          publish_metadata := "http://example.com/SAML2IDP/metadata",
          internal_attributes := [] }
        [("samlbackend", .corr "tok123"),
         ("test_state_key_456afgrh", .other "my_state")]
        { redirect_payload := none, post_payload := none }
        .redirect).2
      "samlbackend" = none ∧
    alistGet
      (authn_response
        { name := "samlbackend",
          entityid := "https://sp.example.com",
          providers := [],
          disco_srv := "https://my.dicso.com/role/idp.ds",
          discovery_response_endpoint := "https://sp.example.com/disco",
          authn_endpoints := [],
          publish_metadata := "http://example.com/SAML2IDP/metadata",
          internal_attributes := [] }
        [("samlbackend", .corr "tok123"),
         ("test_state_key_456afgrh", .other "my_state")]
        { redirect_payload := none, post_payload := none }
        .redirect).2
      "test_state_key_456afgrh"
      = alistGet
          [("samlbackend", StateVal.corr "tok123"),
           ("test_state_key_456afgrh", StateVal.other "my_state")]
          "test_state_key_456afgrh" :=
  ⟨(authn_response_removes_only_own_entry _ _ _ _).1,
   (authn_response_removes_only_own_entry _ _ _ _).2
     "test_state_key_456afgrh" (by decide)⟩

/-! ## C1: relay-token correlation -/

/-- C1: a decodable inbound provider response is accepted by the response
validator only when the stored Flow Correlation Entry for this backend
holds exactly the response's relay token; when no stored entry matches
(entry missing, foreign, or holding a different token) validation fails
with CorrelationMismatchError, whatever the response's assertion or
attributes, so no attribute is trusted or extracted; and after an
issuance that stored token t, any response carrying a different token is
rejected the same way. -/
theorem validate_requires_stored_relay_token
    (b : SAMLBackend) (flow : FlowState) (msg : RawInbound)
    (binding : Binding) (pr : ProviderResponse)
    (hdec : decodeMessage binding msg = some pr) :
    (∀ ir, validate b flow msg binding = .ok ir →
        alistGet flow b.name = some (.corr pr.relay_state)) ∧
    ((∀ t, alistGet flow b.name = some (.corr t) → t ≠ pr.relay_state) →
        validate b flow msg binding = .error .CorrelationMismatchError) ∧
    (∀ t flow0 pid r flow1,
        authn_request b t flow0 pid = .ok (r, flow1) →
        pr.relay_state ≠ t →
        validate b flow1 msg binding = .error .CorrelationMismatchError) := by
  refine ⟨?_, ?_, ?_⟩
  · intro ir h
    unfold validate at h
    rw [hdec] at h
    cases hs : alistGet flow b.name with
    | none => rw [hs] at h; simp at h
    | some sv =>
        cases sv with
        | corr t =>
            rw [hs] at h
            by_cases ht : t = pr.relay_state
            · subst ht; rfl
            · exact absurd h (by simp [ht])
        | other d => rw [hs] at h; simp at h
  · intro hne
    unfold validate
    rw [hdec]
    cases hs : alistGet flow b.name with
    | none => rfl
    | some sv =>
        cases sv with
        | corr t => exact if_neg (hne t hs)
        | other d => rfl
  · intro t flow0 pid r flow1 hiss hne
    have hflow : flow1 = alistSet flow0 b.name (.corr t) :=
      authn_request_ok_flow b t flow0 pid r flow1 hiss
    unfold validate
    rw [hdec, hflow, alistGet_alistSet_self]
    exact if_neg (Ne.symm hne)

/-- Witness for C1: with the stored entry holding tokA, the sample
response carrying tokB is rejected with CorrelationMismatchError. -/
theorem validate_requires_stored_relay_token_witness :
    validate sampleBackend [("samlbackend", StateVal.corr "tokA")]
      sampleMsg .redirect = .error .CorrelationMismatchError :=
  (validate_requires_stored_relay_token sampleBackend
      [("samlbackend", StateVal.corr "tokA")] sampleMsg .redirect samplePr
      rfl).2.1
    (by
      intro t ht
      rw [show alistGet [("samlbackend", StateVal.corr "tokA")]
            sampleBackend.name = some (StateVal.corr "tokA") from rfl] at ht
      injection ht with h1
      injection h1 with h2
      subst h2
      decide)

/-! ## C2: branch order of start -/

/-- C2: start takes exactly one of three branches, first match wins: a
pre-selected provider known to the directory gets a direct redirect to
its single-sign-on endpoint (no discovery redirect: the result is the
issuance result); otherwise a single-provider directory gets a direct
redirect to that provider; otherwise the redirect targets the configured
discovery service URL carrying the backend's own discovery-callback URL
and its own identifier as query parameters. -/
theorem start_auth_branch_order
    (b : SAMLBackend) (t : String) (flow : FlowState)
    (req : InternalRequest) :
    (∀ pid p, req.target_entity_id = some pid → findProvider b pid = some p →
        start_auth b t flow req = authn_request b t flow pid ∧
        ∃ r fs, start_auth b t flow req = .ok (r, fs) ∧
          r.location = p.single_sign_on_service) ∧
    (∀ p, req.target_entity_id = none → b.providers = [p] →
        ∃ r fs, start_auth b t flow req = .ok (r, fs) ∧
          r.location = p.single_sign_on_service) ∧
    (req.target_entity_id = none → b.providers.length ≠ 1 →
        start_auth b t flow req = .ok (disco_redirect b, flow) ∧
        (disco_redirect b).location = b.disco_srv ∧
        (disco_redirect b).params
          = [("return", b.discovery_response_endpoint),
             ("entityID", b.entityid)]) := by
  refine ⟨?_, ?_, ?_⟩
  · intro pid p htgt hfp
    refine ⟨by simp [start_auth, htgt], ?_⟩
    exact ⟨{ status := "303 See Other",
             location := p.single_sign_on_service,
             params := [("SAMLRequest",
                         "AuthnRequest issuer=" ++ b.entityid
                           ++ " destination=" ++ p.single_sign_on_service),
                        ("RelayState", t)] },
           alistSet flow b.name (.corr t),
           by simp [start_auth, htgt, authn_request, hfp], rfl⟩
  · intro p htgt hprov
    have hfp : findProvider b p.entityid = some p := by
      simp [findProvider, hprov, List.find?]
    exact ⟨{ status := "303 See Other",
             location := p.single_sign_on_service,
             params := [("SAMLRequest",
                         "AuthnRequest issuer=" ++ b.entityid
                           ++ " destination=" ++ p.single_sign_on_service),
                        ("RelayState", t)] },
           alistSet flow b.name (.corr t),
           by simp [start_auth, htgt, hprov, authn_request, hfp], rfl⟩
  · intro htgt hlen
    refine ⟨?_, rfl, rfl⟩
    cases hprov : b.providers with
    | nil => simp [start_auth, htgt, hprov]
    | cons p rest =>
        cases rest with
        | nil => exact absurd (by rw [hprov]; rfl) hlen
        | cons q rest2 => simp [start_auth, htgt, hprov]

/-- Witness for C2 at the two-provider sample backend with no
pre-selection: start redirects to the discovery service. -/
theorem start_auth_branch_order_witness :
    start_auth sampleBackend "tokA" [] { target_entity_id := none }
      = .ok (disco_redirect sampleBackend, []) ∧
    (disco_redirect sampleBackend).location
      = "https://my.dicso.com/role/idp.ds" ∧
    (disco_redirect sampleBackend).params
      = [("return", "https://sp.example.com/disco"),
         ("entityID", "https://sp.example.com")] :=
  (start_auth_branch_order sampleBackend "tokA" []
      { target_entity_id := none }).2.2 rfl (by decide)

/-! ## C5: attribute mapping -/

/-- A canonical name not configured in the mapping never appears in the
mapped result. -/
theorem alistGet_mapAttributes_not_mem
    (mapping asserted : List (String × List String)) (c : String)
    (hc : c ∉ mapping.map Prod.fst) :
    alistGet (mapAttributes mapping asserted) c = none := by
  induction mapping with
  | nil => rfl
  | cons kv rest ih =>
      obtain ⟨k, ws⟩ := kv
      simp only [List.map_cons, List.mem_cons, not_or] at hc
      obtain ⟨hkc, hrest⟩ := hc
      cases hfs : ws.findSome? (fun e => alistGet asserted e) with
      | none => simpa [mapAttributes, List.filterMap_cons, hfs]
            using ih hrest
      | some v =>
          simp only [mapAttributes, List.filterMap_cons, hfs]
          rw [alistGet_cons, if_neg (Ne.symm hkc)]
          exact ih hrest

/-- For a mapping with distinct canonical names, the mapped result binds
each configured canonical name to the values of the first configured
external name present in the asserted set, and to nothing when none is
present. -/
theorem alistGet_mapAttributes
    (mapping asserted : List (String × List String)) (c : String)
    (es : List String)
    (hnodup : (mapping.map Prod.fst).Nodup)
    (hmem : (c, es) ∈ mapping) :
    alistGet (mapAttributes mapping asserted) c
      = es.findSome? (fun e => alistGet asserted e) := by
  induction mapping with
  | nil => cases hmem
  | cons kv rest ih =>
      obtain ⟨k, ws⟩ := kv
      simp only [List.map_cons, List.nodup_cons] at hnodup
      obtain ⟨hknotin, hnodup_rest⟩ := hnodup
      rcases List.mem_cons.mp hmem with hhead | htail
      · injection hhead with hk hws
        subst hk
        subst hws
        cases hfs : es.findSome? (fun e => alistGet asserted e) with
        | none =>
            simp only [mapAttributes, List.filterMap_cons, hfs]
            exact alistGet_mapAttributes_not_mem rest asserted c hknotin
        | some v =>
            simp only [mapAttributes, List.filterMap_cons, hfs]
            rw [alistGet_cons]
            simp
      · have hkc : k ≠ c := by
          intro hk
          subst hk
          exact hknotin (List.mem_map.mpr ⟨(k, es), htail, rfl⟩)
        cases hfs : ws.findSome? (fun e => alistGet asserted e) with
        | none =>
            simpa [mapAttributes, List.filterMap_cons, hfs]
              using ih hnodup_rest htail
        | some v =>
            simp only [mapAttributes, List.filterMap_cons, hfs]
            rw [alistGet_cons]
            simp only [if_neg hkc]
            exact ih hnodup_rest htail

/-- A successfully validated response carries exactly the mapped
attributes of the decoded message. -/
theorem validate_ok_attributes
    (b : SAMLBackend) (flow : FlowState) (msg : RawInbound)
    (binding : Binding) (pr : ProviderResponse) (ir : InternalResponse)
    (hdec : decodeMessage binding msg = some pr)
    (hok : validate b flow msg binding = .ok ir) :
    ir.attributes = mapAttributes b.internal_attributes pr.attributes := by
  unfold validate at hok
  rw [hdec] at hok
  cases hs : alistGet flow b.name with
  | none => rw [hs] at hok; simp at hok
  | some sv =>
      cases sv with
      | corr t =>
          rw [hs] at hok
          by_cases ht : t = pr.relay_state
          · by_cases hv : pr.assertion_valid = true
            · simp only [ht, if_pos rfl, hv, if_pos rfl] at hok
              injection hok with hok
              rw [← hok]
            · simp [ht, hv] at hok
          · simp [ht] at hok
      | other d => rw [hs] at hok; simp at hok

/-- C5: in every validated response, each canonical attribute configured
in the mapping table is bound to the values of the first configured
external name, in priority order, present among the asserted attributes;
a canonical attribute none of whose configured external names is asserted
is absent from the result (not bound to an empty value). -/
theorem validate_maps_first_matching_external_name
    (b : SAMLBackend) (flow : FlowState) (msg : RawInbound)
    (binding : Binding) (pr : ProviderResponse) (ir : InternalResponse)
    (c : String) (es : List String)
    (hnodup : (b.internal_attributes.map Prod.fst).Nodup)
    (hdec : decodeMessage binding msg = some pr)
    (hok : validate b flow msg binding = .ok ir)
    (hmem : (c, es) ∈ b.internal_attributes) :
    alistGet ir.attributes c
      = es.findSome? (fun e => alistGet pr.attributes e) := by
  rw [validate_ok_attributes b flow msg binding pr ir hdec hok]
  exact alistGet_mapAttributes b.internal_attributes pr.attributes c es
    hnodup hmem

/-- Witness for C5: the sample response asserts email and sn, and the
validated result binds mail to the email values (email being the first
configured external name present). -/
theorem validate_maps_first_matching_external_name_witness :
    alistGet
      ({ attributes := [("mail", ["test@example.com"]),
                        ("surname", ["Testsson 1"])],
         auth_class_ref := "PASSWORD",
         issuer := "https://idp1.example.com" } : InternalResponse).attributes
      "mail"
      = List.findSome? (fun e => alistGet samplePr.attributes e)
          ["email", "emailAdress", "mail"] :=
  validate_maps_first_matching_external_name sampleBackend
    [("samlbackend", StateVal.corr "tokB")] sampleMsg .redirect samplePr
    { attributes := [("mail", ["test@example.com"]),
                     ("surname", ["Testsson 1"])],
      auth_class_ref := "PASSWORD",
      issuer := "https://idp1.example.com" }
    "mail" ["email", "emailAdress", "mail"]
    (by decide) rfl (by rfl) (by decide)

/-! ## C7: advertised endpoints are routable -/

/-- C7: every endpoint path advertised in the backend's own metadata (all
binding variants of the authentication endpoints, the discovery-callback
endpoint and the own-metadata endpoint) matches a registered
(path-pattern, handler) pair. -/
theorem register_endpoints_cover_advertised
    (b : SAMLBackend) (e : String)
    (he : e ∈ advertised_endpoints b) :
    ∃ handler, (e, handler) ∈ register_endpoints b := by
  unfold advertised_endpoints at he
  rcases List.mem_append.mp he with hm | hm
  · rcases List.mem_map.mp hm with ⟨ep, hep, rfl⟩
    refine ⟨"authn_response", ?_⟩
    unfold register_endpoints
    exact List.mem_append.mpr (Or.inl (List.mem_map.mpr ⟨ep, hep, rfl⟩))
  · simp only [List.mem_cons, List.not_mem_nil, or_false] at hm
    rcases hm with rfl | rfl
    · exact ⟨"disco_response", by simp [register_endpoints]⟩
    · exact ⟨"metadata_endpoint", by simp [register_endpoints]⟩

/-- Witness for C7: the sample backend's published metadata URL is
covered by a registered route. -/
theorem register_endpoints_cover_advertised_witness :
    ∃ handler,
      ("http://example.com/SAML2IDP/metadata", handler)
        ∈ register_endpoints sampleBackend :=
  register_endpoints_cover_advertised sampleBackend
    "http://example.com/SAML2IDP/metadata" (by decide)

/-! ## C8: provider descriptions -/

/-- C8: describeProviders yields exactly one description per Provider
Directory entry, in directory order, each carrying the provider's
identifier, organization info, contact persons and UI display names and
logo; being a pure projection of the read-only directory, repeated calls
return the same sequence. -/
theorem get_metadata_desc_one_per_provider (b : SAMLBackend) :
    (get_metadata_desc b).length = b.providers.length ∧
    (∀ i : Nat, (get_metadata_desc b)[i]?
        = (b.providers[i]?).map toDescription) ∧
    (∀ p, p ∈ b.providers →
        ({ entityid := p.entityid, organization := p.organization,
           contact_person := p.contact_person,
           ui_info := p.ui_info } : MetadataDesc)
          ∈ get_metadata_desc b) ∧
    get_metadata_desc b = b.providers.map toDescription := by
  refine ⟨by simp [get_metadata_desc], fun i => ?_, fun p hp => ?_, rfl⟩
  · simp [get_metadata_desc]
  · exact List.mem_map.mpr ⟨p, hp, rfl⟩

/-- Witness for C8 at the sample backend and its first provider. -/
theorem get_metadata_desc_one_per_provider_witness :
    ({ entityid := sampleIdP1.entityid,
       organization := sampleIdP1.organization,
       contact_person := sampleIdP1.contact_person,
       ui_info := sampleIdP1.ui_info } : MetadataDesc)
      ∈ get_metadata_desc sampleBackend :=
  (get_metadata_desc_one_per_provider sampleBackend).2.2.1 sampleIdP1
    (by decide)

/-! ## C9: the own-metadata endpoint -/

/-- The sample backend with a different own entity identifier but the
same directory and the same advertised endpoints. -/
def sampleBackendAltId : SAMLBackend :=
  { sampleBackend with entityid := "https://other-sp.example.com" }

/-- C9 counterexample: the metadata endpoint serves content-type
text/xml, not application/xml (the repository's test test_metadata_endpoint
asserts text/xml), and because the document embeds the backend's own
entity identifier (the same test asserts it occurs in the body), two
backends agreeing on the Provider Directory and on their advertised
endpoints but differing in their own identifier serialize different
documents. -/
theorem metadata_endpoint_content_type_counterexample :
    alistGet (metadata_endpoint sampleBackend).headers "Content-Type"
      = some "text/xml" ∧
    (some "text/xml" : Option String) ≠ some "application/xml" ∧
    sampleBackend.providers = sampleBackendAltId.providers ∧
    advertised_endpoints sampleBackend
      = advertised_endpoints sampleBackendAltId ∧
    ownMetadataDocument sampleBackend
      ≠ ownMetadataDocument sampleBackendAltId := by
  exact ⟨rfl, by decide, rfl, rfl, by decide⟩

/-- C9 amended: the metadata endpoint returns the serialized metadata
document with content-type text/xml (the provider-native metadata
format), and the document is deterministic given the Provider Directory,
the backend's own entity identifier and its own advertised endpoints. -/
theorem metadata_endpoint_deterministic
    (b b2 : SAMLBackend)
    (_hp : b.providers = b2.providers)
    (hid : b.entityid = b2.entityid)
    (hep : advertised_endpoints b = advertised_endpoints b2) :
    alistGet (metadata_endpoint b).headers "Content-Type"
      = some "text/xml" ∧
    (metadata_endpoint b).message = ownMetadataDocument b ∧
    ownMetadataDocument b = ownMetadataDocument b2 := by
  refine ⟨rfl, rfl, ?_⟩
  unfold ownMetadataDocument
  rw [hid, hep]

/-- Witness for C9 at the sample backend compared with itself. -/
theorem metadata_endpoint_deterministic_witness :
    alistGet (metadata_endpoint sampleBackend).headers "Content-Type"
      = some "text/xml" ∧
    (metadata_endpoint sampleBackend).message
      = ownMetadataDocument sampleBackend ∧
    ownMetadataDocument sampleBackend = ownMetadataDocument sampleBackend :=
  metadata_endpoint_deterministic sampleBackend sampleBackend rfl rfl rfl

/-! ## C6 and C10: SATOSAConfig construction and attribute access -/

/-- A string INTERNAL_ATTRIBUTES value never makes the reparse loop
raise: whatever the json and yaml parsers return, the loop ends with some
value (possibly None) in hand. -/
theorem parse_internal_attributes_str_ok
    (jp yp : String → Option PyVal) (s : String) :
    ∃ out, parse_internal_attributes jp yp (.pystr s) = .ok out := by
  cases hj : jp s with
  | none =>
      exact ⟨(match yp s with | some y => y | none => PyVal.pynone),
             by simp [parse_internal_attributes, _load_dict, _load_json,
                      _load_yaml, hj, PyVal.truthy]⟩
  | some x =>
      by_cases ht : x.truthy = true
      · exact ⟨x, by simp [parse_internal_attributes, _load_dict,
                           _load_json, hj, ht]⟩
      · exact ⟨(match yp s with | some y => y | none => PyVal.pynone),
               by simp [parse_internal_attributes, _load_dict, _load_json,
                        _load_yaml, hj, ht]⟩

/-- A verified conf is a dict holding every mandatory key. -/
theorem _verify_dict_ok_shape (c0 : Option PyVal)
    (h : _verify_dict c0 = .ok ()) :
    ∃ d, c0 = some (.pydict d) ∧
      ∀ k, k ∈ mandatory_dict_keys → (alistGet d k).isSome := by
  cases c0 with
  | none => exact absurd h (by simp [_verify_dict])
  | some v =>
      cases v with
      | pydict d =>
          refine ⟨d, rfl, ?_⟩
          intro k hk
          cases hf : mandatory_dict_keys.find?
              (fun k2 => (alistGet d k2).isNone) with
          | some k2 => simp [_verify_dict, hf] at h
          | none =>
              have hnk := List.find?_eq_none.mp hf k hk
              cases halk : alistGet d k with
              | none => rw [halk] at hnk; simp at hnk
              | some v2 => simp [halk]
      | pynone => exact absurd h (by simp [_verify_dict])
      | pybool b => exact absurd h (by simp [_verify_dict])
      | pyint n => exact absurd h (by simp [_verify_dict])
      | pystr s => exact absurd h (by simp [_verify_dict])

/-- C6 amended: construction raises whenever the parsed configuration is
not a dict (AssertionError, or TypeError already in the parser chain when
the raw input is neither a dict nor a string) or whenever a mandatory key
is missing from the parsed dict; when every mandatory key is present AND
the INTERNAL_ATTRIBUTES value is well formed for the reparse step (a
truthy dict, or a string), construction succeeds without raising.  A
present INTERNAL_ATTRIBUTES value of any other shape (a number, None, a
Boolean, or an empty dict) makes construction raise an uncaught TypeError
out of json.loads, so the unamended success half of the claim fails. -/
theorem satosa_config_construction_fails_fast
    (jp yp : String → Option PyVal) (config : PyVal) :
    ((∀ dd, parse_config jp yp config ≠ .ok (some (.pydict dd))) →
        ∃ e, SATOSAConfig_init jp yp config = .error e) ∧
    (∀ d k, parse_config jp yp config = .ok (some (.pydict d)) →
        k ∈ mandatory_dict_keys → alistGet d k = none →
        ∃ msg, SATOSAConfig_init jp yp config
          = .error (.assertionError msg)) ∧
    (∀ d, parse_config jp yp config = .ok (some (.pydict d)) →
        (∀ k, k ∈ mandatory_dict_keys → (alistGet d k).isSome) →
        (∀ iv, alistGet d "INTERNAL_ATTRIBUTES" = some iv →
            (∃ dd, iv = .pydict dd ∧ iv.truthy = true) ∨
            (∃ s, iv = .pystr s)) →
        ∃ c, SATOSAConfig_init jp yp config = .ok c) := by
  refine ⟨?_, ?_, ?_⟩
  · intro hnotdict
    cases hc : parse_config jp yp config with
    | error e => exact ⟨e, by simp [SATOSAConfig_init, hc]⟩
    | ok c =>
        cases c with
        | none =>
            exact ⟨.assertionError "Missing configuration or unknown format",
                   by simp [SATOSAConfig_init, hc, _verify_dict]⟩
        | some v =>
            cases v with
            | pydict d => exact absurd hc (hnotdict d)
            | pynone =>
                exact ⟨.assertionError "Missing configuration or unknown format",
                       by simp [SATOSAConfig_init, hc, _verify_dict]⟩
            | pybool b2 =>
                exact ⟨.assertionError "Missing configuration or unknown format",
                       by simp [SATOSAConfig_init, hc, _verify_dict]⟩
            | pyint n =>
                exact ⟨.assertionError "Missing configuration or unknown format",
                       by simp [SATOSAConfig_init, hc, _verify_dict]⟩
            | pystr s =>
                exact ⟨.assertionError "Missing configuration or unknown format",
                       by simp [SATOSAConfig_init, hc, _verify_dict]⟩
  · intro d k hc hk hmissing
    have hverify : ∃ msg,
        _verify_dict (some (.pydict d)) = .error (.assertionError msg) := by
      cases hf : mandatory_dict_keys.find?
          (fun k2 => (alistGet d k2).isNone) with
      | some k2 =>
          exact ⟨"Missing key '" ++ k2 ++ "' in config",
                 by simp [_verify_dict, hf]⟩
      | none =>
          have hnk := List.find?_eq_none.mp hf k hk
          rw [hmissing] at hnk
          simp at hnk
    obtain ⟨msg, hmsg⟩ := hverify
    exact ⟨msg, by simp [SATOSAConfig_init, hc, hmsg]⟩
  · intro d hc hall hia
    have hver : _verify_dict (some (.pydict d)) = .ok () := by
      have hf : mandatory_dict_keys.find?
          (fun k => (alistGet d k).isNone) = none := by
        apply List.find?_eq_none.mpr
        intro k hk
        have h1 := hall k hk
        cases halk : alistGet d k with
        | none => rw [halk] at h1; simp at h1
        | some v => simp [halk]
      simp [_verify_dict, hf]
    have hIAmem : "INTERNAL_ATTRIBUTES" ∈ mandatory_dict_keys := by decide
    have hIAsome := hall "INTERNAL_ATTRIBUTES" hIAmem
    cases hiv : alistGet d "INTERNAL_ATTRIBUTES" with
    | none => rw [hiv] at hIAsome; simp at hIAsome
    | some iv =>
        have hpi : ∃ out, parse_internal_attributes jp yp iv = .ok out := by
          rcases hia iv hiv with ⟨dd, hdd, htr⟩ | ⟨s, hss⟩
          · subst hdd
            exact ⟨.pydict dd, by simp [parse_internal_attributes,
                                        _load_dict, htr]⟩
          · subst hss
            exact parse_internal_attributes_str_ok jp yp s
        obtain ⟨out, hout⟩ := hpi
        exact ⟨alistSet d "INTERNAL_ATTRIBUTES" out,
               by simp [SATOSAConfig_init, hc, hver, hiv, hout]⟩

/-- A configuration dict with every mandatory key present and a
well-formed INTERNAL_ATTRIBUTES value, mirroring a realistic setup. -/
def sampleConfigDict : List (String × PyVal) :=
  [("BASE", .pystr "https://proxy.example.com"),
   ("PLUGIN_PATH", .pystr "plugins"),
   ("BACKEND_MODULES", .pystr "backends"),
   ("FRONTEND_MODULES", .pystr "frontends"),
   ("INTERNAL_ATTRIBUTES",
    .pydict [("attributes", .pystr "internal_attributes.yaml")]),
   ("COOKIE_STATE_NAME", .pystr "SATOSA_STATE"),
   ("STATE_ENCRYPTION_KEY", .pystr "state_encryption_key")]

/-- Witness for the amended C6: construction succeeds on the sample
configuration dict. -/
theorem satosa_config_construction_fails_fast_witness :
    ∃ c, SATOSAConfig_init (fun _ => none) (fun _ => none)
        (.pydict sampleConfigDict) = .ok c :=
  (satosa_config_construction_fails_fast (fun _ => none) (fun _ => none)
      (.pydict sampleConfigDict)).2.2 sampleConfigDict rfl
    (by decide)
    (by
      intro iv hiv
      rw [show alistGet sampleConfigDict "INTERNAL_ATTRIBUTES"
            = some (PyVal.pydict
                [("attributes", PyVal.pystr "internal_attributes.yaml")])
          from rfl] at hiv
      injection hiv with h1
      subst h1
      exact Or.inl ⟨_, rfl, rfl⟩)

/-- The sample configuration dict with INTERNAL_ATTRIBUTES degraded to a
number: every mandatory key is still present. -/
def badConfigDict : List (String × PyVal) :=
  [("BASE", .pystr "https://proxy.example.com"),
   ("PLUGIN_PATH", .pystr "plugins"),
   ("BACKEND_MODULES", .pystr "backends"),
   ("FRONTEND_MODULES", .pystr "frontends"),
   ("INTERNAL_ATTRIBUTES", .pyint 5),
   ("COOKIE_STATE_NAME", .pystr "SATOSA_STATE"),
   ("STATE_ENCRYPTION_KEY", .pystr "state_encryption_key")]

/-- C6 counterexample: every mandatory key is present in this config,
yet construction raises: the INTERNAL_ATTRIBUTES reparse loop hands the
number 5 to json.loads, whose TypeError is not among the caught
exceptions (only ValueError is), so SATOSAConfig(config) propagates it
instead of succeeding. -/
theorem satosa_config_construction_counterexample :
    (∀ k, k ∈ mandatory_dict_keys → (alistGet badConfigDict k).isSome) ∧
    SATOSAConfig_init (fun _ => none) (fun _ => none)
        (.pydict badConfigDict) = .error .typeError :=
  ⟨by decide, rfl⟩

/-- Successful construction leaves every mandatory key bound in the
final internal config dict. -/
theorem alistSet_preserves_mandatory
    (d : List (String × PyVal)) (out : PyVal)
    (hkeys : ∀ k, k ∈ mandatory_dict_keys → (alistGet d k).isSome) :
    ∀ k, k ∈ mandatory_dict_keys →
      (alistGet (alistSet d "INTERNAL_ATTRIBUTES" out) k).isSome := by
  intro k hk
  by_cases hik : k = "INTERNAL_ATTRIBUTES"
  · subst hik
    rw [alistGet_alistSet_self]
    rfl
  · rw [alistGet_alistSet_ne _ _ _ _ hik]
    exact hkeys k hk

theorem SATOSAConfig_init_mandatory_present
    (jp yp : String → Option PyVal) (config : PyVal)
    (c : List (String × PyVal))
    (hok : SATOSAConfig_init jp yp config = .ok c) :
    ∀ k, k ∈ mandatory_dict_keys → (alistGet c k).isSome := by
  cases hpc : parse_config jp yp config with
  | error e =>
      have hinit : SATOSAConfig_init jp yp config = .error e := by
        simp [SATOSAConfig_init, hpc]
      rw [hinit] at hok
      cases hok
  | ok c0 =>
      cases hv : _verify_dict c0 with
      | error e =>
          have hinit : SATOSAConfig_init jp yp config = .error e := by
            simp [SATOSAConfig_init, hpc, hv]
          rw [hinit] at hok
          cases hok
      | ok u =>
          obtain ⟨⟩ := u
          obtain ⟨d, hdd, hkeys⟩ := _verify_dict_ok_shape c0 hv
          subst hdd
          cases hiv : alistGet d "INTERNAL_ATTRIBUTES" with
          | none =>
              have hinit : SATOSAConfig_init jp yp config
                  = .ok (alistSet d "INTERNAL_ATTRIBUTES" .pynone) := by
                simp [SATOSAConfig_init, hpc, hv, hiv]
              rw [hinit] at hok
              injection hok with hok
              rw [← hok]
              exact alistSet_preserves_mandatory d .pynone hkeys
          | some iv =>
              cases hpi : parse_internal_attributes jp yp iv with
              | error e =>
                  have hinit : SATOSAConfig_init jp yp config = .error e := by
                    simp [SATOSAConfig_init, hpc, hv, hiv, hpi]
                  rw [hinit] at hok
                  cases hok
              | ok out =>
                  have hinit : SATOSAConfig_init jp yp config
                      = .ok (alistSet d "INTERNAL_ATTRIBUTES" out) := by
                    simp [SATOSAConfig_init, hpc, hv, hiv, hpi]
                  rw [hinit] at hok
                  injection hok with hok
                  rw [← hok]
                  exact alistSet_preserves_mandatory d out hkeys

/-- C10: on a successfully constructed configuration, attribute access
reaching SATOSAConfig.__getattr__ returns the value bound to the
requested key for every key present in the verified dict (in particular
every mandatory key is present and readable) and raises AttributeError
for every key not present. -/
theorem satosa_config_getattr_spec
    (jp yp : String → Option PyVal) (config : PyVal)
    (c : List (String × PyVal))
    (hok : SATOSAConfig_init jp yp config = .ok c) :
    (∀ k v, alistGet c k = some v → SATOSAConfig_getattr c k = .ok v) ∧
    (∀ k, alistGet c k = none →
        ∃ msg, SATOSAConfig_getattr c k = .error (.attributeError msg)) ∧
    (∀ k, k ∈ mandatory_dict_keys →
        ∃ v, alistGet c k = some v ∧ SATOSAConfig_getattr c k = .ok v) := by
  refine ⟨?_, ?_, ?_⟩
  · intro k v h
    unfold SATOSAConfig_getattr
    rw [h]
  · intro k h
    unfold SATOSAConfig_getattr
    rw [h]
    exact ⟨_, rfl⟩
  · intro k hk
    have hs := SATOSAConfig_init_mandatory_present jp yp config c hok k hk
    cases halk : alistGet c k with
    | none => rw [halk] at hs; simp at hs
    | some v =>
        exact ⟨v, rfl, by unfold SATOSAConfig_getattr; rw [halk]⟩

/-- The internal config dict produced from the sample configuration. -/
def sampleParsedConfig : List (String × PyVal) :=
  alistSet sampleConfigDict "INTERNAL_ATTRIBUTES"
    (.pydict [("attributes", .pystr "internal_attributes.yaml")])

/-- Witness for C10: on the constructed sample configuration, the
mandatory key BASE is present and attribute access returns its value. -/
theorem satosa_config_getattr_spec_witness :
    ∃ v, alistGet sampleParsedConfig "BASE" = some v ∧
      SATOSAConfig_getattr sampleParsedConfig "BASE" = .ok v :=
  (satosa_config_getattr_spec (fun _ => none) (fun _ => none)
      (.pydict sampleConfigDict) sampleParsedConfig rfl).2.2
    "BASE" (by decide)

end Satosa
